import Mathlib

/-!
# Dialogflow CX webhook (`function.go`): embedding and verified properties

The Go package `cxwh` is one file: a tag dispatcher (`HandleWebhookRequest`)
over four handlers (`joke`, `validateAccountNumber`, `generateAccountNumber`,
`greeting`).  The handlers are pure apart from three inputs taken from the
outside world, which are made explicit here:

* the value `rand.Intn n` yields (`RandSource`),
* the hour `time.Now().Clock()` yields (an `Int`),
* the outcome of `http.Get` (`HttpGetResult`).

Go run-time panics (an index out of range, a nil pointer dereference) are
results of type `Except GoPanic _`.
-/

namespace cxwh

/-! ## Go run-time and library pieces the source relies on -/

/-- Run-time panics the code of `function.go` can raise. -/
inductive GoPanic where
  | nilPointerDereference
  | indexOutOfRange
  deriving DecidableEq, Repr

/-- A Go `error` value: `none` is `nil`, `some msg` an error whose `Error()` is `msg`. -/
abbrev GoError := Option String

/-- A Go `map[string]string`, as a list of key/value pairs; the first pair with a
given key is the binding of that key. -/
abbrev GoMap := List (String × String)

/-- The index expression `m[key]` on a `map[string]string`: the stored value,
or the zero value `""` when the key is absent (or the map is nil). -/
def GoMap.index (m : GoMap) (key : String) : String :=
  match m.find? (fun kv => kv.1 == key) with
  | some kv => kv.2
  | none => ""

/-- The function `strconv.Itoa`: base-10 text of an `int`, with a leading `-` when negative. -/
def Itoa (x : Int) : String :=
  match x with
  | Int.ofNat n => Nat.repr n
  | Int.negSucc n => "-" ++ Nat.repr (n + 1)

/-- The function `strconv.FormatBool`. -/
def FormatBool (b : Bool) : String :=
  if b then "true" else "false"

/-- The index expression `a[i]` on an array: the element, or the run-time
panic of the bounds check. -/
def arrayIndex {α : Type} (a : List α) (i : Nat) : Except GoPanic α :=
  match a[i]? with
  | some x => Except.ok x
  | none => Except.error GoPanic.indexOutOfRange

/-- A source of random numbers: `Intn n` is what `rand.Intn(n)` yields, which
the library guarantees to lie in `[0, n)` for `0 < n`. -/
structure RandSource where
  Intn : Nat → Nat
  Intn_lt : ∀ n, 0 < n → Intn n < n

/-- The random source whose every draw `rand.Intn(n)` is `k % n`. -/
def RandSource.const (k : Nat) : RandSource where
  Intn := fun n => k % n
  Intn_lt := fun _ hn => Nat.mod_lt _ hn

/-- The `*http.Response` of a completed call: only its body matters here, as
the bytes `ioutil.ReadAll(t.Body)` returns (its error is discarded by the source). -/
structure HttpResponse where
  Body : String
  deriving DecidableEq, Repr

/-- What `http.Get` returned: the response pointer (`none` is `nil`) and the error. -/
structure HttpGetResult where
  resp : Option HttpResponse
  err : GoError
  deriving DecidableEq, Repr

/-! ## Data model (lines 15-52) -/

structure fulfillmentInfo where
  Tag : String
  deriving DecidableEq, Repr

structure sessionInfo where
  Session : String
  Parameters : GoMap
  deriving DecidableEq, Repr

structure text where
  Text : List String
  deriving DecidableEq, Repr

structure responseMessage where
  Text : text
  deriving DecidableEq, Repr

structure fulfillmentResponse where
  Messages : List responseMessage
  deriving DecidableEq, Repr

structure webhookRequest where
  FulfillmentInfo : fulfillmentInfo
  SessionInfo : sessionInfo
  deriving DecidableEq, Repr

structure webhookResponse where
  FulfillmentResponse : fulfillmentResponse
  SessionInfo : sessionInfo
  deriving DecidableEq, Repr

/-- The zero value of `webhookResponse` (`var response webhookResponse`). -/
def webhookResponse.zero : webhookResponse :=
  { FulfillmentResponse := { Messages := [] },
    SessionInfo := { Session := "", Parameters := [] } }

/-- What a handler call produces: a panic, or the returned pair `(response, err)`. -/
abbrev HandlerResult := Except GoPanic (webhookResponse × GoError)

/-! ## Handlers (lines 54-165) -/

/-- The array literal `[10]int{1923, 0515, 1812, 9678, 1732, 1624, 0176, 1659, 8464, 9810}`
declared at lines 81 and 111; the literals with a leading zero are octal in Go. -/
def accountIds : List Int :=
  [1923, 0o515, 1812, 9678, 1732, 1624, 0o176, 1659, 8464, 9810]

/-- The function `joke` (lines 55-77). `get` is what `http.Get` returned; the source
drops its error and reads `t.Body` through the pointer `t`. -/
def joke (get : HttpGetResult) (_request : webhookRequest) : HandlerResult :=
  match get.resp with
  | none => Except.error GoPanic.nilPointerDereference
  | some t =>
    let tt := t.Body
    let p : GoMap := []
    Except.ok
      ({ FulfillmentResponse := { Messages := [{ Text := { Text := [tt] } }] },
         SessionInfo := { Session := "", Parameters := p } }, none)

/-- The `for ... range` loop of lines 83-88, with its `break`: `result` after the loop. -/
def validateAccountNumber.loop (param : String) : List Int → Bool
  | [] => false
  | x :: rest => if Itoa x = param then true else validateAccountNumber.loop param rest

/-- The function `validateAccountNumber` (lines 80-107). -/
def validateAccountNumber (request : webhookRequest) : HandlerResult :=
  let result := validateAccountNumber.loop (request.SessionInfo.Parameters.index "account-number") accountIds
  let p : GoMap := [("valid-account-number", FormatBool result)]
  Except.ok
    ({ FulfillmentResponse := { Messages := [{ Text := { Text := [] } }] },
       SessionInfo := { Session := "", Parameters := p } }, none)

/-- The function `generateAccountNumber` (lines 110-132). -/
def generateAccountNumber (rnd : RandSource) (_request : webhookRequest) : HandlerResult :=
  match arrayIndex accountIds (rnd.Intn 9) with
  | Except.error e => Except.error e
  | Except.ok x =>
    let t := Itoa x
    let p : GoMap := [("account-number", t)]
    Except.ok
      ({ FulfillmentResponse := { Messages := [{ Text := { Text := [] } }] },
         SessionInfo := { Session := "", Parameters := p } }, none)

/-- The array literal of line 138. -/
def fulfillmentArray : List String :=
  ["How are you doing?", "How can I help you? ", "What can I do for you today?", "How can I assist? "]

/-- The function `greeting` (lines 135-165). `hours` is the hour of `time.Now().Clock()`. -/
def greeting (hours : Int) (rnd : RandSource) (_request : webhookRequest) : HandlerResult :=
  let t := "Good Morning"
  let t := if hours > 12 then "Good Afternoon" else t
  let t := if hours > 20 then "Good Night" else t
  match arrayIndex fulfillmentArray (rnd.Intn 3) with
  | Except.error e => Except.error e
  | Except.ok phrase =>
    let t := t ++ "! " ++ phrase
    let p : GoMap := [("hours", Itoa hours)]
    Except.ok
      ({ FulfillmentResponse := { Messages := [{ Text := { Text := [t] } }] },
         SessionInfo := { Session := "", Parameters := p } }, none)

/-! ## Error plumbing and dispatch (lines 167-213) -/

/-- The `http.ResponseWriter` as the state it accumulates: the status line
(`none` while no header has been written) and the body written so far. -/
structure ResponseWriter where
  status : Option Nat
  body : String
  deriving DecidableEq, Repr

/-- The writer a request starts with: nothing written. -/
def ResponseWriter.fresh : ResponseWriter :=
  { status := none, body := "" }

/-- The method `WriteHeader`: fixes the status code unless a header was already written. -/
def ResponseWriter.WriteHeader (w : ResponseWriter) (code : Nat) : ResponseWriter :=
  match w.status with
  | some _ => w
  | none => { w with status := some code }

/-- The method `Write`: appends to the body; the first write without a header implies status 200. -/
def ResponseWriter.Write (w : ResponseWriter) (s : String) : ResponseWriter :=
  match w.status with
  | some _ => { w with body := w.body ++ s }
  | none => { status := some 200, body := w.body ++ s }

/-- The verb `%v` applied to an `error`. -/
def GoError.format (err : GoError) : String :=
  match err with
  | some msg => msg
  | none => "<nil>"

/-- The function `handleError` (lines 168-171). -/
def handleError (w : ResponseWriter) (err : GoError) : ResponseWriter :=
  (w.WriteHeader 500).Write ("ERROR: " ++ err.format)

/-- The four handler functions, by name. -/
inductive Handler where
  | generateAccountNumber
  | validateAccountNumber
  | greeting
  | joke
  deriving DecidableEq, Repr

/-- The outside world one request observes. -/
structure World where
  rand : RandSource
  hours : Int
  get : HttpGetResult

/-- The state after the `switch` of lines 190-201: the handler calls made, each with
its argument, and either a panic or the values of `response` and `err`. -/
structure Dispatched where
  calls : List (Handler × webhookRequest)
  result : HandlerResult

/-- The `switch` statement of lines 190-201. Go compares the tag with each case
in turn; in the `default` branch `response` keeps its zero value. -/
def switchTag (env : World) (request : webhookRequest) : Dispatched :=
  let tag := request.FulfillmentInfo.Tag
  if tag = "generateAccountNumber" then
    { calls := [(Handler.generateAccountNumber, request)],
      result := generateAccountNumber env.rand request }
  else if tag = "validateAccountNumber" then
    { calls := [(Handler.validateAccountNumber, request)],
      result := validateAccountNumber request }
  else if tag = "greeting" then
    { calls := [(Handler.greeting, request)],
      result := greeting env.hours env.rand request }
  else if tag = "joke" then
    { calls := [(Handler.joke, request)],
      result := joke env.get request }
  else
    { calls := [],
      result := Except.ok (webhookResponse.zero, some ("Unknown tag: " ++ tag)) }

/-- What serving one request leaves behind: the handler calls made and either a
panic or the final state of the response writer. -/
structure Served where
  calls : List (Handler × webhookRequest)
  out : Except GoPanic ResponseWriter

/-- The function `HandleWebhookRequest` (lines 174-213). `decoded` is the outcome of
`json.NewDecoder(r.Body).Decode(&request)` and `encode` stands for
`json.NewEncoder(w).Encode`, giving the bytes it writes or its error. The two
`log.Printf` calls write to the log only and are left out. -/
def HandleWebhookRequest (env : World) (encode : webhookResponse → Except String String)
    (w : ResponseWriter) (decoded : Except String webhookRequest) : Served :=
  match decoded with
  | Except.error e => { calls := [], out := Except.ok (handleError w (some e)) }
  | Except.ok request =>
    let d := switchTag env request
    match d.result with
    | Except.error p => { calls := d.calls, out := Except.error p }
    | Except.ok (response, err) =>
      match err with
      | some e => { calls := d.calls, out := Except.ok (handleError w (some e)) }
      | none =>
        match encode response with
        | Except.error e => { calls := d.calls, out := Except.ok (handleError w (some e)) }
        | Except.ok bytes => { calls := d.calls, out := Except.ok (w.Write bytes) }

/-! ## Vocabulary of the specification -/

/-- The tags the `switch` has a case for. -/
def recognisedTags : List String :=
  ["generateAccountNumber", "validateAccountNumber", "greeting", "joke"]

/-- The name of a handler function, which is also the tag that selects it. -/
def Handler.name : Handler → String
  | Handler.generateAccountNumber => "generateAccountNumber"
  | Handler.validateAccountNumber => "validateAccountNumber"
  | Handler.greeting => "greeting"
  | Handler.joke => "joke"

/-- The result of calling the named handler function on a request. -/
def Handler.run (env : World) : Handler → webhookRequest → HandlerResult
  | Handler.generateAccountNumber => cxwh.generateAccountNumber env.rand
  | Handler.validateAccountNumber => cxwh.validateAccountNumber
  | Handler.greeting => cxwh.greeting env.hours env.rand
  | Handler.joke => cxwh.joke env.get

/-- The greeting word the specification assigns to an hour: up to 12 the morning,
above 12 and up to 20 the afternoon, above 20 the night. -/
def hourWord (h : Int) : String :=
  if h ≤ 12 then "Good Morning" else if h ≤ 20 then "Good Afternoon" else "Good Night"

/-- The account-number texts the specification lists as accepted. -/
def acceptedAccountNumbers : List String :=
  ["1923", "333", "1812", "9678", "1732", "1624", "126", "1659", "8464", "9810"]

/-! ## Concrete inputs -/

/-- A request with the given tag and session parameters. -/
def requestWith (tag : String) (params : GoMap) : webhookRequest :=
  { FulfillmentInfo := { Tag := tag },
    SessionInfo := { Session := "projects/p/locations/l/agents/a/sessions/s", Parameters := params } }

/-- A world at nine o'clock in which every random draw is 0 and the joke service answers. -/
def sampleWorld : World :=
  { rand := RandSource.const 0, hours := 9,
    get := { resp := some { Body := "Why did the chicken cross the road?" }, err := none } }

/-- An encoder that always succeeds. -/
def sampleEncode : webhookResponse → Except String String :=
  fun _ => Except.ok "\x7b\x7d\n"

/-! ## Dispatch -/

/-- C1: a decoded request whose tag is none of the four recognised ones makes the
switch call no handler and set the error "Unknown tag: <tag>", and the endpoint
answers status 500 with body "ERROR: Unknown tag: <tag>". -/
theorem unknown_tag_gives_500 (env : World) (encode : webhookResponse → Except String String)
    (request : webhookRequest) (h : request.FulfillmentInfo.Tag ∉ recognisedTags) :
    (switchTag env request).calls = [] ∧
    (switchTag env request).result
      = Except.ok (webhookResponse.zero, some ("Unknown tag: " ++ request.FulfillmentInfo.Tag)) ∧
    HandleWebhookRequest env encode ResponseWriter.fresh (Except.ok request)
      = { calls := [],
          out := Except.ok { status := some 500,
                             body := "ERROR: Unknown tag: " ++ request.FulfillmentInfo.Tag } } := by
  simp only [recognisedTags, List.mem_cons, List.mem_singleton, List.mem_nil_iff, not_or,
    or_false] at h
  obtain ⟨h1, h2, h3, h4⟩ := h
  have hs : switchTag env request
      = { calls := [],
          result := Except.ok (webhookResponse.zero,
            some ("Unknown tag: " ++ request.FulfillmentInfo.Tag)) } := by
    simp [switchTag, h1, h2, h3, h4]
  refine ⟨by rw [hs], by rw [hs], ?_⟩
  simp only [HandleWebhookRequest, hs, handleError, ResponseWriter.fresh,
    ResponseWriter.WriteHeader, ResponseWriter.Write, GoError.format]
  rw [String.empty_append, ← String.append_assoc]
  rfl

/-- Witness of `unknown_tag_gives_500` at the tags "fooBar", "" and "Greeting". -/
theorem unknown_tag_gives_500_witness :
    ("fooBar" ∉ recognisedTags ∧
      HandleWebhookRequest sampleWorld sampleEncode ResponseWriter.fresh
          (Except.ok (requestWith "fooBar" []))
        = { calls := [],
            out := Except.ok { status := some 500, body := "ERROR: Unknown tag: fooBar" } }) ∧
    ("" ∉ recognisedTags ∧
      HandleWebhookRequest sampleWorld sampleEncode ResponseWriter.fresh
          (Except.ok (requestWith "" []))
        = { calls := [],
            out := Except.ok { status := some 500, body := "ERROR: Unknown tag: " } }) ∧
    ("Greeting" ∉ recognisedTags ∧
      HandleWebhookRequest sampleWorld sampleEncode ResponseWriter.fresh
          (Except.ok (requestWith "Greeting" []))
        = { calls := [],
            out := Except.ok { status := some 500, body := "ERROR: Unknown tag: Greeting" } }) :=
  ⟨⟨by decide,
    (unknown_tag_gives_500 sampleWorld sampleEncode (requestWith "fooBar" []) (by decide)).2.2⟩,
   ⟨by decide,
    (unknown_tag_gives_500 sampleWorld sampleEncode (requestWith "" []) (by decide)).2.2⟩,
   ⟨by decide,
    (unknown_tag_gives_500 sampleWorld sampleEncode (requestWith "Greeting" []) (by decide)).2.2⟩⟩

/-- C2: when the tag of a decoded request is the name of a handler, the switch calls
that handler, once, on that request, and no other; `response` and `err` after the
switch are what the handler returned; the endpoint as a whole made the same single call. -/
theorem recognised_tag_calls_its_handler (env : World)
    (encode : webhookResponse → Except String String) (w : ResponseWriter)
    (request : webhookRequest) (k : Handler) (h : request.FulfillmentInfo.Tag = k.name) :
    request.FulfillmentInfo.Tag ∈ recognisedTags ∧
    switchTag env request = { calls := [(k, request)], result := k.run env request } ∧
    (HandleWebhookRequest env encode w (Except.ok request)).calls = [(k, request)] := by
  have hs : switchTag env request = { calls := [(k, request)], result := k.run env request } := by
    cases k <;> simp [switchTag, h, Handler.name, Handler.run]
  refine ⟨?_, hs, ?_⟩
  · cases k <;> simp [h, Handler.name, recognisedTags]
  · simp only [HandleWebhookRequest, hs]
    cases k.run env request with
    | error p => rfl
    | ok v =>
      obtain ⟨response, err⟩ := v
      cases err with
      | some e => rfl
      | none =>
        dsimp only
        cases encode response <;> rfl

/-- Witness of `recognised_tag_calls_its_handler` at each of the four tags. -/
theorem recognised_tag_calls_its_handler_witness :
    switchTag sampleWorld (requestWith "generateAccountNumber" [])
      = { calls := [(Handler.generateAccountNumber, requestWith "generateAccountNumber" [])],
          result := generateAccountNumber sampleWorld.rand (requestWith "generateAccountNumber" []) } ∧
    switchTag sampleWorld (requestWith "validateAccountNumber" [])
      = { calls := [(Handler.validateAccountNumber, requestWith "validateAccountNumber" [])],
          result := validateAccountNumber (requestWith "validateAccountNumber" []) } ∧
    switchTag sampleWorld (requestWith "greeting" [])
      = { calls := [(Handler.greeting, requestWith "greeting" [])],
          result := greeting sampleWorld.hours sampleWorld.rand (requestWith "greeting" []) } ∧
    switchTag sampleWorld (requestWith "joke" [])
      = { calls := [(Handler.joke, requestWith "joke" [])],
          result := joke sampleWorld.get (requestWith "joke" []) } :=
  ⟨(recognised_tag_calls_its_handler sampleWorld sampleEncode ResponseWriter.fresh
      (requestWith "generateAccountNumber" []) Handler.generateAccountNumber rfl).2.1,
   (recognised_tag_calls_its_handler sampleWorld sampleEncode ResponseWriter.fresh
      (requestWith "validateAccountNumber" []) Handler.validateAccountNumber rfl).2.1,
   (recognised_tag_calls_its_handler sampleWorld sampleEncode ResponseWriter.fresh
      (requestWith "greeting" []) Handler.greeting rfl).2.1,
   (recognised_tag_calls_its_handler sampleWorld sampleEncode ResponseWriter.fresh
      (requestWith "joke" []) Handler.joke rfl).2.1⟩

/-! ## The account registry -/

/-- The decimal texts of the registry entries, in order. -/
theorem accountIds_texts :
    accountIds.map Itoa
      = ["1923", "333", "1812", "9678", "1732", "1624", "126", "1659", "8464", "9810"] := by
  decide

/-- The loop of `validateAccountNumber` ends with `result` true exactly when some
entry formats to the parameter. -/
theorem validateAccountNumber.loop_iff (param : String) (ids : List Int) :
    validateAccountNumber.loop param ids = true ↔ ∃ x ∈ ids, Itoa x = param := by
  induction ids with
  | nil => simp [validateAccountNumber.loop]
  | cons x rest ih =>
    by_cases hx : Itoa x = param
    · simp [validateAccountNumber.loop, hx]
    · simp [validateAccountNumber.loop, hx, ih]

/-- The value `validateAccountNumber` returns, in terms of its loop. -/
theorem validateAccountNumber_eq (request : webhookRequest) :
    validateAccountNumber request
      = Except.ok
          ({ FulfillmentResponse := { Messages := [{ Text := { Text := [] } }] },
             SessionInfo :=
               { Session := "",
                 Parameters :=
                   [("valid-account-number",
                     FormatBool (validateAccountNumber.loop
                       (request.SessionInfo.Parameters.index "account-number") accountIds))] } },
           none) :=
  rfl

/-- Indexing a map at a key it does not hold gives the empty string. -/
theorem GoMap.index_absent (m : GoMap) (key : String) (h : ∀ kv ∈ m, kv.1 ≠ key) :
    m.index key = "" := by
  have hf : m.find? (fun kv => kv.1 == key) = none := by
    rw [List.find?_eq_none]
    intro kv hkv
    simpa using h kv hkv
  simp [GoMap.index, hf]

/-- Every draw of `generateAccountNumber` indexes one of the first nine entries, in
bounds, and returns its decimal text under "account-number". -/
theorem generateAccountNumber_draw (rnd : RandSource) (request : webhookRequest) :
    ∃ x, x ∈ accountIds.take 9 ∧ arrayIndex accountIds (rnd.Intn 9) = Except.ok x ∧
      generateAccountNumber rnd request
        = Except.ok
            ({ FulfillmentResponse := { Messages := [{ Text := { Text := [] } }] },
               SessionInfo := { Session := "", Parameters := [("account-number", Itoa x)] } },
             none) := by
  have h := rnd.Intn_lt 9 (by decide)
  unfold generateAccountNumber
  generalize rnd.Intn 9 = i at h
  interval_cases i <;> exact ⟨_, by decide, rfl, rfl⟩

/-- C3: `validateAccountNumber` returns no error; its session parameters are
"valid-account-number" = "true" when the "account-number" parameter equals the decimal
text of some entry of the ten-entry registry, and "false" otherwise, in particular when
the parameter is absent. -/
theorem validateAccountNumber_membership (request : webhookRequest) :
    ((∃ x ∈ accountIds, Itoa x = request.SessionInfo.Parameters.index "account-number") →
      ∃ response, validateAccountNumber request = Except.ok (response, none) ∧
        response.SessionInfo.Parameters = [("valid-account-number", "true")]) ∧
    ((¬ ∃ x ∈ accountIds, Itoa x = request.SessionInfo.Parameters.index "account-number") →
      ∃ response, validateAccountNumber request = Except.ok (response, none) ∧
        response.SessionInfo.Parameters = [("valid-account-number", "false")]) ∧
    ((∀ kv ∈ request.SessionInfo.Parameters, kv.1 ≠ "account-number") →
      ∃ response, validateAccountNumber request = Except.ok (response, none) ∧
        response.SessionInfo.Parameters = [("valid-account-number", "false")]) ∧
    accountIds.length = 10 := by
  refine ⟨?_, ?_, ?_, by decide⟩
  · intro h
    have hl := (validateAccountNumber.loop_iff _ _).2 h
    exact ⟨_, validateAccountNumber_eq request, by simp [hl, FormatBool]⟩
  · intro h
    have hl : validateAccountNumber.loop
        (request.SessionInfo.Parameters.index "account-number") accountIds = false := by
      rw [← Bool.not_eq_true, validateAccountNumber.loop_iff]
      exact h
    exact ⟨_, validateAccountNumber_eq request, by simp [hl, FormatBool]⟩
  · intro h
    have hl : validateAccountNumber.loop
        (request.SessionInfo.Parameters.index "account-number") accountIds = false := by
      rw [GoMap.index_absent _ _ h]
      decide
    exact ⟨_, validateAccountNumber_eq request, by simp [hl, FormatBool]⟩

/-- Witness of `validateAccountNumber_membership`: "1923" is valid, "0000" is not, and
a request without the parameter is not. -/
theorem validateAccountNumber_membership_witness :
    (∃ response,
      validateAccountNumber (requestWith "validateAccountNumber" [("account-number", "1923")])
        = Except.ok (response, none) ∧
      response.SessionInfo.Parameters = [("valid-account-number", "true")]) ∧
    (∃ response,
      validateAccountNumber (requestWith "validateAccountNumber" [("account-number", "0000")])
        = Except.ok (response, none) ∧
      response.SessionInfo.Parameters = [("valid-account-number", "false")]) ∧
    (∃ response,
      validateAccountNumber (requestWith "validateAccountNumber" [("other", "1923")])
        = Except.ok (response, none) ∧
      response.SessionInfo.Parameters = [("valid-account-number", "false")]) :=
  ⟨(validateAccountNumber_membership
      (requestWith "validateAccountNumber" [("account-number", "1923")])).1
      ⟨1923, by decide, by decide⟩,
   (validateAccountNumber_membership
      (requestWith "validateAccountNumber" [("account-number", "0000")])).2.1 (by decide),
   (validateAccountNumber_membership
      (requestWith "validateAccountNumber" [("other", "1923")])).2.2.1 (by decide)⟩

/-- C4: for every request and every draw, `generateAccountNumber` returns no error
and session parameters made of the single key "account-number", whose value is the
decimal text of an entry of the ten-entry registry; the array index is in bounds. -/
theorem generateAccountNumber_in_registry (rnd : RandSource) (request : webhookRequest) :
    ∃ response x, x ∈ accountIds ∧
      arrayIndex accountIds (rnd.Intn 9) = Except.ok x ∧
      rnd.Intn 9 < accountIds.length ∧
      accountIds.length = 10 ∧
      generateAccountNumber rnd request = Except.ok (response, none) ∧
      response.SessionInfo.Parameters = [("account-number", Itoa x)] := by
  obtain ⟨x, hx, hidx, hgen⟩ := generateAccountNumber_draw rnd request
  refine ⟨_, x, List.mem_of_mem_take hx, hidx, ?_, by decide, hgen, rfl⟩
  exact lt_trans (rnd.Intn_lt 9 (by decide)) (by decide)

/-- C6, as stated, fails: the responses of `validateAccountNumber` and of
`generateAccountNumber` both carry one message, so their message lists are not empty. -/
theorem messages_not_empty :
    (∃ response,
      validateAccountNumber (requestWith "validateAccountNumber" [("account-number", "1923")])
        = Except.ok (response, none) ∧
      response.FulfillmentResponse.Messages.length = 1 ∧
      response.FulfillmentResponse.Messages ≠ []) ∧
    (∃ response,
      generateAccountNumber (RandSource.const 0) (requestWith "generateAccountNumber" [])
        = Except.ok (response, none) ∧
      response.FulfillmentResponse.Messages.length = 1 ∧
      response.FulfillmentResponse.Messages ≠ []) :=
  ⟨⟨_, rfl, rfl, by decide⟩, ⟨_, rfl, rfl, by decide⟩⟩

/-- C6, amended: for every request (and every draw), the responses of
`generateAccountNumber` and of `validateAccountNumber` each carry exactly one message,
whose list of texts is empty. -/
theorem messages_one_empty_text (rnd : RandSource) (request : webhookRequest) :
    (∃ response err, generateAccountNumber rnd request = Except.ok (response, err) ∧
      response.FulfillmentResponse.Messages = [{ Text := { Text := [] } }]) ∧
    (∃ response err, validateAccountNumber request = Except.ok (response, err) ∧
      response.FulfillmentResponse.Messages = [{ Text := { Text := [] } }]) := by
  obtain ⟨x, _, _, hgen⟩ := generateAccountNumber_draw rnd request
  exact ⟨⟨_, _, hgen, rfl⟩, ⟨_, _, validateAccountNumber_eq request, rfl⟩⟩

/-- C7: the account numbers `generateAccountNumber` can return are exactly the first
nine registry entries: every draw returns one of them, each of them is returned by
some draw, and no draw returns the last entry, 9810. -/
theorem generateAccountNumber_first_nine (request : webhookRequest) :
    (∀ rnd : RandSource, ∃ response x, x ∈ accountIds.take 9 ∧
      generateAccountNumber rnd request = Except.ok (response, none) ∧
      response.SessionInfo.Parameters = [("account-number", Itoa x)]) ∧
    (∀ x ∈ accountIds.take 9, ∃ (rnd : RandSource) (response : webhookResponse),
      generateAccountNumber rnd request = Except.ok (response, none) ∧
      response.SessionInfo.Parameters = [("account-number", Itoa x)]) ∧
    (∀ (rnd : RandSource) (response : webhookResponse) (err : GoError),
      generateAccountNumber rnd request = Except.ok (response, err) →
      response.SessionInfo.Parameters ≠ [("account-number", Itoa 9810)]) ∧
    accountIds = accountIds.take 9 ++ [9810] := by
  refine ⟨?_, ?_, ?_, by decide⟩
  · intro rnd
    obtain ⟨x, hx, _, hgen⟩ := generateAccountNumber_draw rnd request
    exact ⟨_, x, hx, hgen, rfl⟩
  · intro x hx
    have hx9 : x = 1923 ∨ x = 333 ∨ x = 1812 ∨ x = 9678 ∨ x = 1732 ∨ x = 1624 ∨ x = 126 ∨
        x = 1659 ∨ x = 8464 := by
      simpa [accountIds] using hx
    rcases hx9 with h | h | h | h | h | h | h | h | h <;> subst h
    · exact ⟨RandSource.const 0, _, rfl, rfl⟩
    · exact ⟨RandSource.const 1, _, rfl, rfl⟩
    · exact ⟨RandSource.const 2, _, rfl, rfl⟩
    · exact ⟨RandSource.const 3, _, rfl, rfl⟩
    · exact ⟨RandSource.const 4, _, rfl, rfl⟩
    · exact ⟨RandSource.const 5, _, rfl, rfl⟩
    · exact ⟨RandSource.const 6, _, rfl, rfl⟩
    · exact ⟨RandSource.const 7, _, rfl, rfl⟩
    · exact ⟨RandSource.const 8, _, rfl, rfl⟩
  · intro rnd response err hret
    obtain ⟨x, hx, _, hgen⟩ := generateAccountNumber_draw rnd request
    rw [hgen] at hret
    simp only [Except.ok.injEq, Prod.mk.injEq] at hret
    rw [← hret.1]
    have hx9 : x = 1923 ∨ x = 333 ∨ x = 1812 ∨ x = 9678 ∨ x = 1732 ∨ x = 1624 ∨ x = 126 ∨
        x = 1659 ∨ x = 8464 := by
      simpa [accountIds] using hx
    rcases hx9 with h | h | h | h | h | h | h | h | h <;> subst h <;> decide

/-- Witness of `generateAccountNumber_first_nine`: the draw 8 returns "8464", the ninth
entry, and the response it gives does not carry "9810". -/
theorem generateAccountNumber_first_nine_witness :
    (∃ (rnd : RandSource) (response : webhookResponse),
      generateAccountNumber rnd (requestWith "generateAccountNumber" [])
        = Except.ok (response, none) ∧
      response.SessionInfo.Parameters = [("account-number", Itoa 8464)]) ∧
    ({ Session := "", Parameters := [("account-number", "8464")] } : sessionInfo).Parameters
      ≠ [("account-number", Itoa 9810)] :=
  ⟨(generateAccountNumber_first_nine (requestWith "generateAccountNumber" [])).2.1
      8464 (by decide),
   (generateAccountNumber_first_nine (requestWith "generateAccountNumber" [])).2.2.1
      (RandSource.const 8)
      { FulfillmentResponse := { Messages := [{ Text := { Text := [] } }] },
        SessionInfo := { Session := "", Parameters := [("account-number", "8464")] } }
      none rfl⟩

/-- C10: the literals 0515 and 0176 are octal (333 and 126), so the account-number
texts `validateAccountNumber` accepts are exactly the ten distinct texts "1923", "333",
"1812", "9678", "1732", "1624", "126", "1659", "8464", "9810": "0515" and "0176" are
rejected, "333" and "126" accepted, and `generateAccountNumber` can return "333" and
"126" but never "0515" or "0176". -/
theorem octal_literals_accepted_texts (request : webhookRequest) :
    accountIds = [1923, 333, 1812, 9678, 1732, 1624, 126, 1659, 8464, 9810] ∧
    ((∃ response, validateAccountNumber request = Except.ok (response, none) ∧
        response.SessionInfo.Parameters = [("valid-account-number", "true")])
      ↔ request.SessionInfo.Parameters.index "account-number" ∈ acceptedAccountNumbers) ∧
    acceptedAccountNumbers.Nodup ∧ acceptedAccountNumbers.length = 10 ∧
    "0515" ∉ acceptedAccountNumbers ∧ "0176" ∉ acceptedAccountNumbers ∧
    "333" ∈ acceptedAccountNumbers ∧ "126" ∈ acceptedAccountNumbers ∧
    (∃ (rnd : RandSource) (response : webhookResponse),
      generateAccountNumber rnd request = Except.ok (response, none) ∧
      response.SessionInfo.Parameters = [("account-number", "333")]) ∧
    (∃ (rnd : RandSource) (response : webhookResponse),
      generateAccountNumber rnd request = Except.ok (response, none) ∧
      response.SessionInfo.Parameters = [("account-number", "126")]) ∧
    (∀ (rnd : RandSource) (response : webhookResponse) (err : GoError),
      generateAccountNumber rnd request = Except.ok (response, err) →
      response.SessionInfo.Parameters ≠ [("account-number", "0515")] ∧
      response.SessionInfo.Parameters ≠ [("account-number", "0176")]) := by
  refine ⟨by decide, ?_, by decide, by decide, by decide, by decide, by decide, by decide,
    ⟨RandSource.const 1, _, rfl, rfl⟩, ⟨RandSource.const 6, _, rfl, rfl⟩, ?_⟩
  · have hmem : request.SessionInfo.Parameters.index "account-number" ∈ acceptedAccountNumbers
        ↔ ∃ x ∈ accountIds, Itoa x = request.SessionInfo.Parameters.index "account-number" := by
      have ht : acceptedAccountNumbers = accountIds.map Itoa := accountIds_texts.symm
      rw [ht, List.mem_map]
    rw [hmem, ← validateAccountNumber.loop_iff]
    constructor
    · rintro ⟨response, hret, hpar⟩
      rw [validateAccountNumber_eq] at hret
      simp only [Except.ok.injEq, Prod.mk.injEq, and_true] at hret
      rw [← hret] at hpar
      cases hl : validateAccountNumber.loop
          (request.SessionInfo.Parameters.index "account-number") accountIds with
      | true => rfl
      | false =>
        rw [hl] at hpar
        exact absurd hpar (by decide)
    · intro hl
      exact ⟨_, validateAccountNumber_eq request, by simp [hl, FormatBool]⟩
  · intro rnd response err hret
    obtain ⟨x, hx, _, hgen⟩ := generateAccountNumber_draw rnd request
    rw [hgen] at hret
    simp only [Except.ok.injEq, Prod.mk.injEq] at hret
    rw [← hret.1]
    have hx9 : x = 1923 ∨ x = 333 ∨ x = 1812 ∨ x = 9678 ∨ x = 1732 ∨ x = 1624 ∨ x = 126 ∨
        x = 1659 ∨ x = 8464 := by
      simpa [accountIds] using hx
    rcases hx9 with h | h | h | h | h | h | h | h | h <;> subst h <;> decide

/-- Witness of `octal_literals_accepted_texts`: the parameter "333" is accepted and
the parameter "0515" is not. -/
theorem octal_literals_accepted_texts_witness :
    (∃ response,
      validateAccountNumber (requestWith "validateAccountNumber" [("account-number", "333")])
        = Except.ok (response, none) ∧
      response.SessionInfo.Parameters = [("valid-account-number", "true")]) ∧
    ¬ (∃ response,
      validateAccountNumber (requestWith "validateAccountNumber" [("account-number", "0515")])
        = Except.ok (response, none) ∧
      response.SessionInfo.Parameters = [("valid-account-number", "true")]) :=
  ⟨(octal_literals_accepted_texts
      (requestWith "validateAccountNumber" [("account-number", "333")])).2.1.2 (by decide),
   fun h => absurd
     ((octal_literals_accepted_texts
        (requestWith "validateAccountNumber" [("account-number", "0515")])).2.1.1 h)
     (by decide)⟩

/-! ## The greeting -/

/-- The word the two cascading `if`s of `greeting` leave in `t` is the word of the
specification's hour ranges. -/
theorem hourWord_eq_cascade (h : Int) :
    (if h > 20 then "Good Night" else if h > 12 then "Good Afternoon" else "Good Morning")
      = hourWord h := by
  unfold hourWord
  split_ifs <;> first | rfl | omega

/-- Every draw of `greeting` indexes one of the first three phrases, in bounds, and
returns the word of the hour, "! " and that phrase as its only text. -/
theorem greeting_draw (h : Int) (rnd : RandSource) (request : webhookRequest) :
    ∃ p, p ∈ fulfillmentArray.take 3 ∧ arrayIndex fulfillmentArray (rnd.Intn 3) = Except.ok p ∧
      greeting h rnd request
        = Except.ok
            ({ FulfillmentResponse :=
                 { Messages := [{ Text := { Text := [hourWord h ++ "! " ++ p] } }] },
               SessionInfo := { Session := "", Parameters := [("hours", Itoa h)] } },
             none) := by
  have hlt := rnd.Intn_lt 3 (by decide)
  unfold greeting
  rw [← hourWord_eq_cascade h]
  generalize rnd.Intn 3 = i at hlt
  interval_cases i <;> exact ⟨_, by decide, rfl, rfl⟩

/-- The word of an hour is one of three. -/
theorem hourWord_cases (h : Int) :
    hourWord h = "Good Morning" ∨ hourWord h = "Good Afternoon" ∨ hourWord h = "Good Night" := by
  unfold hourWord
  split_ifs <;> simp

/-- C5: for an hour between 0 and 23 and any draw, the greeting text starts with
"Good Morning!" up to hour 12, with "Good Afternoon!" above 12 and up to 20, and with
"Good Night!" above 20. -/
theorem greeting_word_by_hour (h : Int) (rnd : RandSource) (request : webhookRequest)
    (h0 : 0 ≤ h) (h23 : h ≤ 23) :
    ∃ response t, greeting h rnd request = Except.ok (response, none) ∧
      response.FulfillmentResponse.Messages = [{ Text := { Text := [t] } }] ∧
      (h ≤ 12 → ∃ rest, t = "Good Morning!" ++ rest) ∧
      (12 < h → h ≤ 20 → ∃ rest, t = "Good Afternoon!" ++ rest) ∧
      (20 < h → ∃ rest, t = "Good Night!" ++ rest) := by
  obtain ⟨p, _, _, hg⟩ := greeting_draw h rnd request
  refine ⟨_, _, hg, rfl, ?_, ?_, ?_⟩
  · intro hle
    refine ⟨" " ++ p, ?_⟩
    have hw : hourWord h = "Good Morning" := by simp [hourWord, hle]
    rw [hw, ← String.append_assoc]
    rfl
  · intro hgt hle
    refine ⟨" " ++ p, ?_⟩
    have hw : hourWord h = "Good Afternoon" := by
      unfold hourWord
      rw [if_neg (by omega), if_pos hle]
    rw [hw, ← String.append_assoc]
    rfl
  · intro hgt
    refine ⟨" " ++ p, ?_⟩
    have hw : hourWord h = "Good Night" := by
      unfold hourWord
      rw [if_neg (by omega), if_neg (by omega)]
    rw [hw, ← String.append_assoc]
    rfl

/-- Witness of `greeting_word_by_hour` at the hours 9, 15, 21 and at the boundary
hours 12 and 20. -/
theorem greeting_word_by_hour_witness :
    (∃ response rest,
      greeting 9 (RandSource.const 0) (requestWith "greeting" []) = Except.ok (response, none) ∧
      response.FulfillmentResponse.Messages = [{ Text := { Text := ["Good Morning!" ++ rest] } }]) ∧
    (∃ response rest,
      greeting 15 (RandSource.const 0) (requestWith "greeting" []) = Except.ok (response, none) ∧
      response.FulfillmentResponse.Messages = [{ Text := { Text := ["Good Afternoon!" ++ rest] } }]) ∧
    (∃ response rest,
      greeting 21 (RandSource.const 0) (requestWith "greeting" []) = Except.ok (response, none) ∧
      response.FulfillmentResponse.Messages = [{ Text := { Text := ["Good Night!" ++ rest] } }]) ∧
    (∃ response rest,
      greeting 12 (RandSource.const 0) (requestWith "greeting" []) = Except.ok (response, none) ∧
      response.FulfillmentResponse.Messages = [{ Text := { Text := ["Good Morning!" ++ rest] } }]) ∧
    (∃ response rest,
      greeting 20 (RandSource.const 0) (requestWith "greeting" []) = Except.ok (response, none) ∧
      response.FulfillmentResponse.Messages = [{ Text := { Text := ["Good Afternoon!" ++ rest] } }]) := by
  refine ⟨?_, ?_, ?_, ?_, ?_⟩
  · obtain ⟨response, t, hg, hm, h1, h2, h3⟩ :=
      greeting_word_by_hour 9 (RandSource.const 0) (requestWith "greeting" [])
        (by decide) (by decide)
    obtain ⟨rest, hr⟩ := h1 (by decide)
    exact ⟨response, rest, hg, hr ▸ hm⟩
  · obtain ⟨response, t, hg, hm, h1, h2, h3⟩ :=
      greeting_word_by_hour 15 (RandSource.const 0) (requestWith "greeting" [])
        (by decide) (by decide)
    obtain ⟨rest, hr⟩ := h2 (by decide) (by decide)
    exact ⟨response, rest, hg, hr ▸ hm⟩
  · obtain ⟨response, t, hg, hm, h1, h2, h3⟩ :=
      greeting_word_by_hour 21 (RandSource.const 0) (requestWith "greeting" [])
        (by decide) (by decide)
    obtain ⟨rest, hr⟩ := h3 (by decide)
    exact ⟨response, rest, hg, hr ▸ hm⟩
  · obtain ⟨response, t, hg, hm, h1, h2, h3⟩ :=
      greeting_word_by_hour 12 (RandSource.const 0) (requestWith "greeting" [])
        (by decide) (by decide)
    obtain ⟨rest, hr⟩ := h1 (by decide)
    exact ⟨response, rest, hg, hr ▸ hm⟩
  · obtain ⟨response, t, hg, hm, h1, h2, h3⟩ :=
      greeting_word_by_hour 20 (RandSource.const 0) (requestWith "greeting" [])
        (by decide) (by decide)
    obtain ⟨rest, hr⟩ := h2 (by decide) (by decide)
    exact ⟨response, rest, hg, hr ▸ hm⟩

/-- C8: for every hour and every draw, `greeting` returns no error, exactly one message
whose single text is the word of the hour, "! " and one of the first three follow-up
phrases, and the session parameters "hours" = decimal text of the hour; each of the
three phrases is returned by some draw, and the fourth, "How can I assist? ", by none. -/
theorem greeting_text_and_hours (h : Int) (request : webhookRequest) :
    (∀ rnd : RandSource, ∃ p ∈ fulfillmentArray.take 3,
      greeting h rnd request
        = Except.ok
            ({ FulfillmentResponse :=
                 { Messages := [{ Text := { Text := [hourWord h ++ "! " ++ p] } }] },
               SessionInfo := { Session := "", Parameters := [("hours", Itoa h)] } },
             none)) ∧
    (∀ p ∈ fulfillmentArray.take 3, ∃ rnd : RandSource,
      greeting h rnd request
        = Except.ok
            ({ FulfillmentResponse :=
                 { Messages := [{ Text := { Text := [hourWord h ++ "! " ++ p] } }] },
               SessionInfo := { Session := "", Parameters := [("hours", Itoa h)] } },
             none)) ∧
    (∀ (rnd : RandSource) (response : webhookResponse) (err : GoError),
      greeting h rnd request = Except.ok (response, err) →
      response.FulfillmentResponse.Messages
        ≠ [{ Text := { Text := [hourWord h ++ "! " ++ "How can I assist? "] } }]) ∧
    fulfillmentArray.take 3
      = ["How are you doing?", "How can I help you? ", "What can I do for you today?"] ∧
    fulfillmentArray = fulfillmentArray.take 3 ++ ["How can I assist? "] := by
  refine ⟨?_, ?_, ?_, by decide, by decide⟩
  · intro rnd
    obtain ⟨p, hp, _, hg⟩ := greeting_draw h rnd request
    exact ⟨p, hp, hg⟩
  · intro p hp
    have hp3 : p = "How are you doing?" ∨ p = "How can I help you? " ∨
        p = "What can I do for you today?" := by
      simpa [fulfillmentArray] using hp
    rcases hp3 with hq | hq | hq <;> subst hq
    · obtain ⟨q, _, hi, hg⟩ := greeting_draw h (RandSource.const 0) request
      have hq : q = "How are you doing?" := (Except.ok.inj hi).symm
      rw [hq] at hg
      exact ⟨_, hg⟩
    · obtain ⟨q, _, hi, hg⟩ := greeting_draw h (RandSource.const 1) request
      have hq : q = "How can I help you? " := (Except.ok.inj hi).symm
      rw [hq] at hg
      exact ⟨_, hg⟩
    · obtain ⟨q, _, hi, hg⟩ := greeting_draw h (RandSource.const 2) request
      have hq : q = "What can I do for you today?" := (Except.ok.inj hi).symm
      rw [hq] at hg
      exact ⟨_, hg⟩
  · intro rnd response err hret
    obtain ⟨p, hp, _, hg⟩ := greeting_draw h rnd request
    rw [hg] at hret
    simp only [Except.ok.injEq, Prod.mk.injEq] at hret
    rw [← hret.1]
    have hp3 : p = "How are you doing?" ∨ p = "How can I help you? " ∨
        p = "What can I do for you today?" := by
      simpa [fulfillmentArray] using hp
    show [({ Text := { Text := [hourWord h ++ "! " ++ p] } } : responseMessage)] ≠ _
    rcases hourWord_cases h with hw | hw | hw <;> rw [hw] <;>
      rcases hp3 with hq | hq | hq <;> subst hq <;> decide

/-- Witness of `greeting_text_and_hours` at nine o'clock: the phrase "How can I help
you? " is returned by some draw, and the response of the draw 0 does not carry the
fourth phrase. -/
theorem greeting_text_and_hours_witness :
    (∃ rnd : RandSource,
      greeting 9 rnd (requestWith "greeting" [])
        = Except.ok
            ({ FulfillmentResponse :=
                 { Messages := [{ Text := { Text := [hourWord 9 ++ "! " ++ "How can I help you? "] } }] },
               SessionInfo := { Session := "", Parameters := [("hours", Itoa 9)] } },
             none)) ∧
    ({ Messages := [{ Text := { Text := ["Good Morning! How are you doing?"] } }] }
        : fulfillmentResponse).Messages
      ≠ [{ Text := { Text := [hourWord 9 ++ "! " ++ "How can I assist? "] } }] :=
  ⟨(greeting_text_and_hours 9 (requestWith "greeting" [])).2.1 "How can I help you? "
      (by decide),
   (greeting_text_and_hours 9 (requestWith "greeting" [])).2.2.1 (RandSource.const 0)
      { FulfillmentResponse :=
          { Messages := [{ Text := { Text := ["Good Morning! How are you doing?"] } }] },
        SessionInfo := { Session := "", Parameters := [("hours", "9")] } }
      none rfl⟩

/-! ## The joke -/

/-- C9 (evaluation of the code): when `http.Get` fails and returns no response, `joke`
reads `t.Body` through the nil pointer and panics; it returns neither a response nor a
nil error, and the endpoint serving the tag "joke" ends in the same panic. -/
theorem joke_panics_when_get_fails (err : GoError) (request : webhookRequest) :
    joke { resp := none, err := err } request = Except.error GoPanic.nilPointerDereference ∧
    (∀ (response : webhookResponse) (e : GoError),
      joke { resp := none, err := err } request ≠ Except.ok (response, e)) ∧
    (∀ (params : GoMap),
      (HandleWebhookRequest
          { rand := RandSource.const 0, hours := 9, get := { resp := none, err := err } }
          sampleEncode ResponseWriter.fresh (Except.ok (requestWith "joke" params))).out
        = Except.error GoPanic.nilPointerDereference) := by
  refine ⟨rfl, ?_, fun _ => rfl⟩
  intro response e hret
  simp [joke] at hret

end cxwh
